import Mathlib

/-
  Verification of the licensing/activation subsystem of the
  DxMaurine/dmpos-activation-server point-of-sale backend.

  The definitions below are a shallow embedding of
  `src/pos-backend/services/activationService.js` (class ActivationService)
  together with the pieces of `src/pos-backend/index.js` that map service
  errors to the externally visible error kinds.  Machine words are modelled
  as `Nat` with explicit reduction modulo 2^32 / 2^64; timestamps are `Nat`
  milliseconds; SQLite rows are Lean structures; the `sqlite3` callbacks are
  modelled as pure state-passing functions.
-/

set_option maxRecDepth 100000

namespace DMPOS

/-! ## MD5 (crypto.createHash('md5'), as used by isValidCRC)

The checksum of a serial number is the MD5 digest of an ASCII string.
`node:crypto` hashes the UTF-8 encoding of the string, so we embed MD5 over
byte lists (bytes are `Nat` values < 256, words are `Nat` values < 2^32)
plus a UTF-8 encoder. -/

/-- Addition of two 32-bit words, reduced modulo 2^32. -/
def add32 (a b : Nat) : Nat := (a + b) % 4294967296

/-- Bitwise complement of a 32-bit word `a < 2^32`:
`0xFFFFFFFF ^^^ a = 0xFFFFFFFF - a`. -/
def not32 (a : Nat) : Nat := 4294967295 - a

/-- Left rotation of a 32-bit word by `s` (for `0 < s < 32`):
the two summands occupy disjoint bit ranges, so `+` is bitwise or. -/
def rotl32 (a s : Nat) : Nat := (a * 2 ^ s + a / 2 ^ (32 - s)) % 4294967296

/-- The 64 MD5 round constants `K[i] = floor(abs(sin(i+1)) * 2^32)`. -/
def md5K : List Nat :=
  [0xd76aa478, 0xe8c7b756, 0x242070db, 0xc1bdceee,
   0xf57c0faf, 0x4787c62a, 0xa8304613, 0xfd469501,
   0x698098d8, 0x8b44f7af, 0xffff5bb1, 0x895cd7be,
   0x6b901122, 0xfd987193, 0xa679438e, 0x49b40821,
   0xf61e2562, 0xc040b340, 0x265e5a51, 0xe9b6c7aa,
   0xd62f105d, 0x02441453, 0xd8a1e681, 0xe7d3fbc8,
   0x21e1cde6, 0xc33707d6, 0xf4d50d87, 0x455a14ed,
   0xa9e3e905, 0xfcefa3f8, 0x676f02d9, 0x8d2a4c8a,
   0xfffa3942, 0x8771f681, 0x6d9d6122, 0xfde5380c,
   0xa4beea44, 0x4bdecfa9, 0xf6bb4b60, 0xbebfbc70,
   0x289b7ec6, 0xeaa127fa, 0xd4ef3085, 0x04881d05,
   0xd9d4d039, 0xe6db99e5, 0x1fa27cf8, 0xc4ac5665,
   0xf4292244, 0x432aff97, 0xab9423a7, 0xfc93a039,
   0x655b59c3, 0x8f0ccc92, 0xffeff47d, 0x85845dd1,
   0x6fa87e4f, 0xfe2ce6e0, 0xa3014314, 0x4e0811a1,
   0xf7537e82, 0xbd3af235, 0x2ad7d2bb, 0xeb86d391]

/-- The 64 MD5 per-round left-rotation amounts. -/
def md5S : List Nat :=
  [7, 12, 17, 22, 7, 12, 17, 22, 7, 12, 17, 22, 7, 12, 17, 22,
   5, 9, 14, 20, 5, 9, 14, 20, 5, 9, 14, 20, 5, 9, 14, 20,
   4, 11, 16, 23, 4, 11, 16, 23, 4, 11, 16, 23, 4, 11, 16, 23,
   6, 10, 15, 21, 6, 10, 15, 21, 6, 10, 15, 21, 6, 10, 15, 21]

/-- MD5 round function and message-word index for round `i`. -/
def md5FG (i b c d : Nat) : Nat × Nat :=
  if i < 16 then ((b.land c).lor ((not32 b).land d), i)
  else if i < 32 then ((d.land b).lor ((not32 d).land c), (5 * i + 1) % 16)
  else if i < 48 then ((b.xor c).xor d, (3 * i + 5) % 16)
  else (c.xor (b.lor (not32 d)), (7 * i) % 16)

/-- One MD5 round: state `(a, b, c, d)`, message block `M` (16 words). -/
def md5Step (M : List Nat) (st : Nat × Nat × Nat × Nat) (i : Nat) :
    Nat × Nat × Nat × Nat :=
  let (a, b, c, d) := st
  let (f, g) := md5FG i b c d
  let rot := rotl32 (add32 (add32 (add32 a f) (md5K.getD i 0)) (M.getD g 0)) (md5S.getD i 0)
  (d, add32 b rot, b, c)

/-- Process one 512-bit block and add the result into the running state. -/
def md5Chunk (h : Nat × Nat × Nat × Nat) (M : List Nat) : Nat × Nat × Nat × Nat :=
  let (a, b, c, d) := (List.range 64).foldl (md5Step M) h
  (add32 h.1 a, add32 h.2.1 b, add32 h.2.2.1 c, add32 h.2.2.2 d)

/-- Group bytes into little-endian 32-bit words. -/
def toWords : List Nat → List Nat
  | b0 :: b1 :: b2 :: b3 :: rest =>
      (b0 + 256 * b1 + 65536 * b2 + 16777216 * b3) :: toWords rest
  | _ => []

/-- Group a word list into blocks of 16 words. -/
def blocks16 : List Nat → List (List Nat)
  | w0 :: w1 :: w2 :: w3 :: w4 :: w5 :: w6 :: w7 ::
    w8 :: w9 :: w10 :: w11 :: w12 :: w13 :: w14 :: w15 :: rest =>
      [w0, w1, w2, w3, w4, w5, w6, w7, w8, w9, w10, w11, w12, w13, w14, w15] ::
        blocks16 rest
  | _ => []

/-- The eight little-endian bytes of a 64-bit value. -/
def le8 (n : Nat) : List Nat :=
  [n % 256, n / 256 % 256, n / 65536 % 256, n / 16777216 % 256,
   n / 4294967296 % 256, n / 1099511627776 % 256,
   n / 281474976710656 % 256, n / 72057594037927936 % 256]

/-- The four little-endian bytes of a 32-bit word. -/
def le4 (n : Nat) : List Nat :=
  [n % 256, n / 256 % 256, n / 65536 % 256, n / 16777216 % 256]

/-- MD5 padding: append `0x80`, zero bytes up to 56 mod 64, then the
64-bit little-endian bit length. -/
def padBytes (msg : List Nat) : List Nat :=
  let len := msg.length
  let z := (119 - len % 64) % 64
  msg ++ [128] ++ List.replicate z 0 ++ le8 ((len * 8) % 18446744073709551616)

/-- Lowercase hex digit (for `n < 16`), as produced by `digest('hex')`:
`0`-`9` are code points 48-57 and `a`-`f` are 97-102. -/
def hexChar (n : Nat) : Char :=
  if n < 10 then Char.ofNat (48 + n) else Char.ofNat (87 + n)

/-- Two lowercase hex digits of a byte. -/
def byteHex (b : Nat) : List Char := [hexChar (b / 16), hexChar (b % 16)]

/-- MD5 of a byte list, rendered as the 32-character lowercase hex digest. -/
def md5hexBytes (msg : List Nat) : String :=
  let bs := blocks16 (toWords (padBytes msg))
  let (a, b, c, d) := bs.foldl md5Chunk (0x67452301, 0xefcdab89, 0x98badcfe, 0x10325476)
  String.mk ((le4 a ++ le4 b ++ le4 c ++ le4 d).foldr (fun byte acc => byteHex byte ++ acc) [])

/-- UTF-8 encoding of a single code point. -/
def utf8Encode (c : Char) : List Nat :=
  let n := c.toNat
  if n < 128 then [n]
  else if n < 2048 then [192 + n / 64, 128 + n % 64]
  else if n < 65536 then [224 + n / 4096, 128 + (n / 64) % 64, 128 + n % 64]
  else [240 + n / 262144, 128 + (n / 4096) % 64, 128 + (n / 64) % 64, 128 + n % 64]

/-- UTF-8 bytes of a string (what `hash.update(string)` hashes in node). -/
def strBytes (s : String) : List Nat :=
  s.data.foldr (fun c acc => utf8Encode c ++ acc) []

/-- `crypto.createHash('md5').update(s).digest('hex')`. -/
def md5hex (s : String) : String := md5hexBytes (strBytes s)

/-- Sanity check of the MD5 embedding against the RFC 1321 test vector. -/
theorem md5hex_empty : md5hex "" = "d41d8cd98f00b204e9800998ecf8427e" := by decide

/-- Sanity check of the MD5 embedding against the RFC 1321 test vector. -/
theorem md5hex_abc : md5hex "abc" = "900150983cd24fb0d6963f7d28e17f72" := by decide

/-! ## Serial Number Codec (activationService.js lines 213-237) -/

/-- `s.substring(0, n)` on a short ASCII string: the first `n` characters. -/
def strTake (s : String) (n : Nat) : String := String.mk (s.data.take n)

/-- ASCII uppercasing of one character (the inputs uppercased by
`isValidCRC` are hex digits, so the ASCII case suffices). -/
def upperChar (c : Char) : Char :=
  if 97 ≤ c.toNat && c.toNat ≤ 122 then Char.ofNat (c.toNat - 32) else c

/-- `s.toUpperCase()` on an ASCII string. -/
def strToUpper (s : String) : String := String.mk (s.data.map upperChar)

/-- `serialNumber.split('-')`: JavaScript split semantics, e.g.
`"a--b" ↦ ["a", "", "b"]` and `"" ↦ [""]`. -/
def splitDashAux : List Char → List Char → List String
  | [], acc => [String.mk acc.reverse]
  | c :: rest, acc =>
      if c = '-' then String.mk acc.reverse :: splitDashAux rest []
      else splitDashAux rest (c :: acc)

/-- `serialNumber.split('-')`. -/
def splitDash (s : String) : List String := splitDashAux s.data []

/-- `\d` of the serial regex: an ASCII digit. -/
def isDigitChar (c : Char) : Bool := 48 ≤ c.toNat && c.toNat ≤ 57

/-- `[A-Z0-9]` of the serial regex. -/
def isUpperAlnumChar (c : Char) : Bool :=
  (65 ≤ c.toNat && c.toNat ≤ 90) || (48 ≤ c.toNat && c.toNat ≤ 57)

/-- Tail of the regex: `[A-Z0-9]{4}$`. -/
def matchCRCpart : List Char → Bool
  | [c1, c2, c3, c4] =>
      isUpperAlnumChar c1 && isUpperAlnumChar c2 && isUpperAlnumChar c3 && isUpperAlnumChar c4
  | _ => false

/-- Middle of the regex: `[A-Z0-9]{6}-` followed by the checksum segment. -/
def matchBodyPart : List Char → Bool
  | x1 :: x2 :: x3 :: x4 :: x5 :: x6 :: h :: rest =>
      isUpperAlnumChar x1 && isUpperAlnumChar x2 && isUpperAlnumChar x3 &&
      isUpperAlnumChar x4 && isUpperAlnumChar x5 && isUpperAlnumChar x6 &&
      h == '-' && matchCRCpart rest
  | _ => false

/-- Year segment of the regex: `\d{4}-` followed by the body. -/
def matchYearPart : List Char → Bool
  | y1 :: y2 :: y3 :: y4 :: h :: rest =>
      isDigitChar y1 && isDigitChar y2 && isDigitChar y3 && isDigitChar y4 &&
      h == '-' && matchBodyPart rest
  | _ => false

/-- `isValidSNFormat(serialNumber)` (activationService.js 214-218): the
anchored regex test `/^DMPOS-\d{4}-[A-Z0-9]{6}-[A-Z0-9]{4}$/.test(serialNumber)`,
transliterated segment by segment (the pattern is of fixed width, so the
match is deterministic). -/
def isValidSNFormat (s : String) : Bool :=
  match s.data with
  | d :: m :: p :: o :: s5 :: h :: rest =>
      d == 'D' && m == 'M' && p == 'P' && o == 'O' && s5 == 'S' && h == '-' &&
      matchYearPart rest
  | _ => false

/-- `isValidCRC(serialNumber)` (activationService.js 221-237):
split on `'-'`, require exactly 4 segments (`parts.length !== 4` returns
false), recompute the checksum as the first 4 hex characters (uppercased) of
`md5(parts[0] + '-' + parts[1] + '-' + parts[2] + '-')` and compare it
case-sensitively (`===`) to `parts[3]`. -/
def isValidCRC (serialNumber : String) : Bool :=
  match splitDash serialNumber with
  | [p0, p1, p2, p3] =>
      let baseString := p0 ++ "-" ++ p1 ++ "-" ++ p2 ++ "-"
      let expectedCRC := strToUpper (strTake (md5hex baseString) 4)
      p3 == expectedCRC
  | _ => false

/-- The first preloaded test serial of initDB really carries a valid
checksum (`md5("DMPOS-2024-000001-")` starts with `4005`). -/
theorem testSN1_checksum_ok : isValidCRC "DMPOS-2024-000001-4005" = true := by decide

/-! ## License State Store (table transaction_counter, initDB lines 21-32) -/

/-- `license_status`: the code only ever stores `'trial'` (the schema
default and resetTrialCounter) or `'activated'` (activateLicense). -/
inductive LicenseStatus where
  | trial
  | activated
deriving DecidableEq

/-- The singleton `transaction_counter` row (`id = 1`).  Timestamps are
`Nat` milliseconds; NULLable columns are `Option`. -/
structure CounterRow where
  totalTransactions : Nat
  licenseStatus : LicenseStatus
  serialNumber : Option String
  hardwareId : Option String
  activationDate : Option Nat
  lastValidation : Option Nat
  temporaryUntil : Option Nat
deriving DecidableEq

/-- `this.maxTrialTransactions` (activationService.js line 12). -/
def maxTrialTransactions : Nat := 99

/-- The row inserted by initDB on a fresh install:
`INSERT OR IGNORE INTO transaction_counter (id, total_transactions) VALUES (1, 0)`
with all other columns at their schema defaults (`'trial'`, NULL). -/
def freshCounter : CounterRow :=
  { totalTransactions := 0, licenseStatus := .trial, serialNumber := none,
    hardwareId := none, activationDate := none, lastValidation := none,
    temporaryUntil := none }

/-! ## incrementTransaction (activationService.js lines 240-303) -/

/-- Graduated warning levels attached to trial increments. -/
inductive Warning where
  | critical
  | high
  | medium
deriving DecidableEq

/-- The `remaining` field of increment/status responses: the string
`'unlimited'` or a number. -/
inductive Remaining where
  | unlimited
  | num (n : Nat)
deriving DecidableEq

/-- `reject(new Error('TRIAL_LIMIT_REACHED'))`. -/
inductive IncError where
  | TRIAL_LIMIT_REACHED
deriving DecidableEq

/-- The object resolved by incrementTransaction.  The activated branch's
object carries no `message` property, modelled as `none`. -/
structure IncResult where
  success : Bool
  total : Nat
  remaining : Remaining
  warning : Option Warning
  status : LicenseStatus
  message : Option String
deriving DecidableEq

/-- `incrementTransaction()` (lines 240-303) acting on the counter row it
reads: if `license_status = 'activated'`, increment unconditionally and
resolve `remaining: 'unlimited'`; otherwise (trial) reject with
TRIAL_LIMIT_REACHED when `currentCount >= 99` leaving the row untouched,
else store `newCount = currentCount + 1` and resolve with
`remaining = 99 - newCount` and the graduated warning/message. -/
def incrementTransaction (row : CounterRow) : Except IncError IncResult × CounterRow :=
  let currentCount := row.totalTransactions
  match row.licenseStatus with
  | .activated =>
      (.ok { success := true, total := currentCount + 1, remaining := .unlimited,
             warning := none, status := .activated, message := none },
       { row with totalTransactions := row.totalTransactions + 1 })
  | .trial =>
      if maxTrialTransactions ≤ currentCount then
        (.error .TRIAL_LIMIT_REACHED, row)
      else
        let newCount := currentCount + 1
        let remaining := maxTrialTransactions - newCount
        let warning : Option Warning :=
          if remaining ≤ 4 then some .critical
          else if remaining ≤ 9 then some .high
          else if remaining ≤ 19 then some .medium
          else none
        let message : Option String :=
          if remaining = 0 then some "Trial limit reached - activation required"
          else if remaining ≤ 4 then some ("Only " ++ toString remaining ++ " transactions left!")
          else if remaining ≤ 19 then some (toString remaining ++ " transactions remaining")
          else none
        (.ok { success := true, total := newCount, remaining := .num remaining,
               warning := warning, status := .trial, message := message },
         { row with totalTransactions := newCount })

/-! ## getActivationStatus (activationService.js lines 526-562) -/

/-- The `status` string of the status response. -/
inductive StatusKind where
  | trial
  | activated
  | temporary
deriving DecidableEq

/-- The object resolved by getActivationStatus. -/
structure StatusResult where
  status : StatusKind
  totalTransactions : Nat
  remaining : Remaining
  activated : Bool
  serialNumber : Option String
  hardwareId : Option String
  activationDate : Option Nat
  temporary : Bool
  expires : Option Nat
deriving DecidableEq

/-- `row.temporary_until && new Date(row.temporary_until) > new Date()`:
the grace expiry is set and strictly in the future. -/
def isTemporary (row : CounterRow) (now : Nat) : Bool :=
  match row.temporaryUntil with
  | some t => now < t
  | none => false

/-- `getActivationStatus()` on the stored row at wall-clock time `now`.
`remaining` models `Math.max(0, 99 - total)` (`Nat` subtraction truncates
at 0 exactly like the `Math.max`). -/
def getActivationStatus (row : CounterRow) (now : Nat) : StatusResult :=
  let isTemp := isTemporary row now
  { status :=
      if isTemp then .temporary
      else match row.licenseStatus with
        | .trial => .trial
        | .activated => .activated,
    totalTransactions := row.totalTransactions,
    remaining :=
      if row.licenseStatus = .activated || isTemp then .unlimited
      else .num (maxTrialTransactions - row.totalTransactions),
    activated := row.licenseStatus = .activated,
    serialNumber := row.serialNumber,
    hardwareId := row.hardwareId,
    activationDate := row.activationDate,
    temporary := isTemp,
    expires := row.temporaryUntil }

/-! ## resetTrialCounter (activationService.js lines 565-584) -/

/-- `resetTrialCounter()`: the UPDATE sets `total_transactions = 0`,
`license_status = 'trial'` and NULLs `serial_number`, `hardware_id`,
`activation_date` and `temporary_until`.  The column list of the UPDATE
does not mention `last_validation`, so that column keeps its value. -/
def resetTrialCounter (row : CounterRow) : CounterRow :=
  { row with
    totalTransactions := 0, licenseStatus := .trial, serialNumber := none,
    hardwareId := none, activationDate := none, temporaryUntil := none }

/-! ## Store state and the activation protocol
(activationService.js lines 306-523) -/

/-- A `preloaded_sns` row. -/
structure PreloadedSN where
  serialNumber : String
  valid : Bool
  maxInstallations : Nat
  generatedDate : Nat
  licenseType : String
deriving DecidableEq

/-- A `validation_queue` row (the autoincrement `id` is the list position). -/
structure QueueEntry where
  serialNumber : String
  hardwareId : String
  timestamp : Nat
  attempts : Nat
  status : String
deriving DecidableEq

/-- The durable activation state: the singleton counter row, the preloaded
serial table and the validation queue. -/
structure Store where
  counter : CounterRow
  preloaded : List PreloadedSN
  queue : List QueueEntry
deriving DecidableEq

/-- `SELECT * FROM preloaded_sns WHERE serial_number = ?`
(`serial_number` is the primary key, so at most one row matches). -/
def findPreloaded (store : Store) (sn : String) : Option PreloadedSN :=
  store.preloaded.find? (fun r => r.serialNumber == sn)

/-- The result objects produced by validateOnline / validateOffline.
`vtype` embeds the JavaScript `type` property (`type` is not a usable
field name in Lean). -/
structure ValidationResult where
  success : Bool
  vtype : Option String
  temporary : Bool
  expires : Option Nat
  message : Option String
  code : Option String
  installations : List String
deriving DecidableEq

/-- Observable side effects of activateLicense, in order of occurrence:
the hardware-fingerprint computation, the network request of
validateOnline, the INSERT into validation_queue, and the UPDATE of
transaction_counter. -/
inductive Effect where
  | fingerprint
  | network
  | queueWrite
  | counterWrite
deriving DecidableEq

/-- `queueForOnlineValidation(serialNumber, hardwareId)` (lines 511-523):
`INSERT OR REPLACE INTO validation_queue (serial_number, hardware_id,
timestamp, attempts, status) VALUES (?, ?, datetime('now'), 0, 'pending')`.
The table's only uniqueness constraint is the autoincrement `id` primary
key (initDB lines 46-55) and the insert does not supply `id`, so the
statement never hits a conflict: it always appends a fresh row. -/
def queueForOnlineValidation (store : Store) (sn hw : String) (now : Nat) : Store :=
  { store with
    queue := store.queue ++
      [{ serialNumber := sn, hardwareId := hw, timestamp := now, attempts := 0,
         status := "pending" }] }

/-- The unknown-serial branch of validateOffline (lines 492-505): enqueue
for later online validation and grant a temporary activation expiring
`30 * 24 * 60 * 60 * 1000` ms (30 days) from now. -/
def offlineTemporaryGrant (store : Store) (sn hw : String) (now : Nat) :
    ValidationResult × Store × List Effect :=
  ({ success := true, vtype := some "unknown", temporary := true,
     expires := some (now + 2592000000),
     message := some "Temporary activation - requires online verification within 30 days",
     code := none, installations := [] },
   queueForOnlineValidation store sn hw now, [Effect.queueWrite])

/-- `validateOffline(serialNumber, hardwareId)` (lines 473-508): look the
serial up in `preloaded_sns`; if found with `valid` set, succeed
non-temporarily with the table's license type; otherwise (`row && row.valid`
falsy: row absent or marked invalid) take the temporary-grant branch. -/
def validateOffline (store : Store) (sn hw : String) (now : Nat) :
    ValidationResult × Store × List Effect :=
  match findPreloaded store sn with
  | some row =>
      if row.valid then
        ({ success := true, vtype := some row.licenseType, temporary := false,
           expires := none, message := some "Validated offline - will sync when online",
           code := none, installations := [] }, store, [])
      else offlineTemporaryGrant store sn hw now
  | none => offlineTemporaryGrant store sn hw now

/-- The rejections of activateLicense.  index.js (lines 150-186) maps the
error carrying message `'Invalid serial number format'` to kind
`INVALID_FORMAT`, `'Invalid serial number checksum'` to `INVALID_CHECKSUM`,
an error with `code = 'MAX_INSTALLATIONS_REACHED'` to that kind (HTTP 409),
and everything else to `ACTIVATION_FAILED`. -/
inductive ActError where
  | invalidFormat
  | invalidChecksum
  | maxInstallationsReached (message : String) (installations : List String)
  | activationFailed (message : String)
deriving DecidableEq

/-- The object resolved by a successful activateLicense.
`vtype` embeds the JavaScript `type` property. -/
structure ActivationResult where
  success : Bool
  serialNumber : String
  hardwareId : String
  vtype : String
  temporary : Bool
  expires : Option Nat
  message : String
deriving DecidableEq

instance {ε α : Type} [DecidableEq ε] [DecidableEq α] : DecidableEq (Except ε α) :=
  fun x y =>
    match x, y with
    | .error e1, .error e2 =>
        if h : e1 = e2 then .isTrue (by rw [h])
        else .isFalse (fun hc => h (by injection hc))
    | .ok a1, .ok a2 =>
        if h : a1 = a2 then .isTrue (by rw [h])
        else .isFalse (fun hc => h (by injection hc))
    | .error _, .ok _ => .isFalse (fun hc => Except.noConfusion hc)
    | .ok _, .error _ => .isFalse (fun hc => Except.noConfusion hc)

/-- Result, post-state and effect trace of one activateLicense call. -/
structure ActOutcome where
  result : Except ActError ActivationResult
  store : Store
  effects : List Effect
deriving DecidableEq

/-- `activateLicense(serialNumber, computerInfo)` (lines 306-374).
`hardwareId` stands for the value produced by the fingerprint computation
and `onlineResult` for the outcome of `validateOnline` (a network
interaction): `.error` is any thrown online failure, upon which the code
falls back to validateOffline.  Effects are recorded in order; the two
format/checksum rejections happen before the fingerprint computation, the
network call and every write. -/
def activateLicense (store : Store) (serialNumber hardwareId : String)
    (onlineResult : Except String ValidationResult) (now : Nat) : ActOutcome :=
  if !isValidSNFormat serialNumber then
    { result := .error .invalidFormat, store := store, effects := [] }
  else if !isValidCRC serialNumber then
    { result := .error .invalidChecksum, store := store, effects := [] }
  else
    let (validationResult, store1, offlineEffects) :=
      match onlineResult with
      | .ok v => (v, store, ([] : List Effect))
      | .error _ => validateOffline store serialNumber hardwareId now
    let effects := Effect.fingerprint :: Effect.network :: offlineEffects
    if validationResult.success then
      let newCounter :=
        { store1.counter with
          licenseStatus := .activated,
          serialNumber := some serialNumber,
          hardwareId := some hardwareId,
          activationDate := some now,
          lastValidation := some now,
          temporaryUntil :=
            if validationResult.temporary then validationResult.expires else none }
      { result := .ok
          { success := true, serialNumber := serialNumber, hardwareId := hardwareId,
            vtype := validationResult.vtype.getD "standard",
            temporary := validationResult.temporary,
            expires := validationResult.expires,
            message := validationResult.message.getD "Activation successful" },
        store := { store1 with counter := newCounter },
        effects := effects ++ [Effect.counterWrite] }
    else if validationResult.code = some "MAX_INSTALLATIONS_REACHED" then
      { result := .error (.maxInstallationsReached
          (validationResult.message.getD "Maximum installations reached")
          validationResult.installations),
        store := store1, effects := effects }
    else
      { result := .error (.activationFailed
          (validationResult.message.getD "Activation failed")),
        store := store1, effects := effects }

/-! ## Interleaving model of concurrent incrementTransaction calls

incrementTransaction runs `SELECT * FROM transaction_counter WHERE id = 1`
(line 244) and later, in the SELECT's callback, the absolute
`UPDATE transaction_counter SET total_transactions = ?` with
`newCount = currentCount + 1` computed from the value the SELECT returned
(lines 277-278).  Each call opens its own sqlite3 connection and the two
statements are not wrapped in a transaction, so the statements of
concurrent calls interleave.  A call is one `read` step followed by one
`write` step; the `write` step performs the line-271 limit check and the
UPDATE against the snapshot taken by its `read`. -/

/-- Shared counter, per-call snapshots (call id, value read), and the
number of calls that resolved with success. -/
structure RaceState where
  count : Nat
  locals : List (Nat × Nat)
  successes : Nat
deriving DecidableEq

/-- One database statement of one in-flight trial-mode call. -/
inductive RaceStep where
  | read (pid : Nat)
  | write (pid : Nat)
deriving DecidableEq

/-- The snapshot taken by call `pid`'s SELECT, if it already ran. -/
def lookupLocal (locals : List (Nat × Nat)) (pid : Nat) : Option Nat :=
  (locals.find? (fun e => e.1 == pid)).map (fun e => e.2)

/-- Execute one statement.  A `write` whose snapshot is at or above the
trial limit rejects (no state change); otherwise it stores
`snapshot + 1` — the absolute value of line 278 — and counts a success. -/
def raceStep (st : RaceState) (s : RaceStep) : RaceState :=
  match s with
  | .read pid => { st with locals := st.locals ++ [(pid, st.count)] }
  | .write pid =>
      match lookupLocal st.locals pid with
      | none => st
      | some snapshot =>
          if maxTrialTransactions ≤ snapshot then st
          else { st with count := snapshot + 1, successes := st.successes + 1 }

/-- Run a schedule of interleaved statements from an initial counter. -/
def raceRun (init : Nat) (sched : List RaceStep) : RaceState :=
  sched.foldl raceStep { count := init, locals := [], successes := 0 }

/-! ## Concrete fixtures used by witnesses and counterexamples -/

/-- A store as produced by initDB on a machine whose preloaded table is
empty (no entry for any serial). -/
def store0 : Store := { counter := freshCounter, preloaded := [], queue := [] }

/-- The first test serial of initDB; its checksum segment is genuinely the
first four uppercased hex characters of `md5("DMPOS-2024-000001-")`. -/
def snA : String := "DMPOS-2024-000001-4005"

/-- A string that fails the serial format regex. -/
def snBadFmt : String := "HELLO"

/-- Well-formed per the regex, but with a wrong checksum segment. -/
def snBadCRC : String := "DMPOS-2024-000001-FFFF"

/-- A trial row that has exhausted the 99-transaction budget. -/
def row99 : CounterRow := { freshCounter with totalTransactions := 99 }

/-- A trial row with 80 used transactions (next increment leaves 18). -/
def row80 : CounterRow := { freshCounter with totalTransactions := 80 }

/-- An activated row whose grace expiry is still in the future. -/
def rowTempActivated : CounterRow :=
  { totalTransactions := 0, licenseStatus := .activated,
    serialNumber := some snA, hardwareId := some "HW-1",
    activationDate := some 1, lastValidation := some 1, temporaryUntil := some 10 }

/-- A fully populated row as left behind by a validated activation. -/
def rowPostActivation : CounterRow :=
  { totalTransactions := 42, licenseStatus := .activated,
    serialNumber := some snA, hardwareId := some "HW-1",
    activationDate := some 100, lastValidation := some 200, temporaryUntil := some 300 }

/-- An activated row whose stored grace expiry (5) lies far in the past. -/
def rowExpiredGrace : CounterRow :=
  { totalTransactions := 500, licenseStatus := .activated,
    serialNumber := some snA, hardwareId := some "HW-1",
    activationDate := some 0, lastValidation := some 0, temporaryUntil := some 5 }

/-- An activated row with a large counter. -/
def rowBig : CounterRow :=
  { freshCounter with totalTransactions := 100000, licenseStatus := .activated }

/-! ## Spec-side predicates -/

/-- Spec wording for `getActivationStatus`: "temporaryUntil is set and
strictly in the future". -/
def tempValid (row : CounterRow) (now : Nat) : Prop :=
  ∃ t, row.temporaryUntil = some t ∧ now < t

/-- The code-side boolean `isTemporary` decides the spec-side `tempValid`. -/
theorem isTemporary_iff (row : CounterRow) (now : Nat) :
    isTemporary row now = true ↔ tempValid row now := by
  cases h : row.temporaryUntil <;> simp [isTemporary, tempValid, h]

/-! ## Claim C1 -/

/-- C1: in trial mode, incrementTransaction fails with TRIAL_LIMIT_REACHED
leaving the stored counter unchanged when `totalTransactions ≥ 99`;
otherwise it stores `newCount = totalTransactions + 1` and returns
`remaining = 99 - newCount` with warning `critical` for remaining ≤ 4,
`high` for 4 < remaining ≤ 9, `medium` for 9 < remaining ≤ 19, and no
warning otherwise. -/
theorem incrementTransaction_trial_spec (row : CounterRow)
    (h : row.licenseStatus = .trial) :
    (99 ≤ row.totalTransactions →
      incrementTransaction row = (.error .TRIAL_LIMIT_REACHED, row)) ∧
    (row.totalTransactions < 99 →
      ∃ res : IncResult,
        incrementTransaction row =
          (.ok res, { row with totalTransactions := row.totalTransactions + 1 }) ∧
        res.total = row.totalTransactions + 1 ∧
        res.remaining = .num (99 - (row.totalTransactions + 1)) ∧
        (99 - (row.totalTransactions + 1) ≤ 4 → res.warning = some .critical) ∧
        (4 < 99 - (row.totalTransactions + 1) → 99 - (row.totalTransactions + 1) ≤ 9 →
          res.warning = some .high) ∧
        (9 < 99 - (row.totalTransactions + 1) → 99 - (row.totalTransactions + 1) ≤ 19 →
          res.warning = some .medium) ∧
        (19 < 99 - (row.totalTransactions + 1) → res.warning = none)) := by
  constructor
  · intro hge
    simp only [incrementTransaction, h, maxTrialTransactions]
    rw [if_pos hge]
  · intro hlt
    simp only [incrementTransaction, h, maxTrialTransactions]
    rw [if_neg (by omega)]
    refine ⟨_, rfl, rfl, rfl, ?_, ?_, ?_, ?_⟩
    · intro h1; simp only [if_pos h1]
    · intro h1 h2; simp only [if_neg (by omega : ¬ 99 - (row.totalTransactions + 1) ≤ 4),
        if_pos h2]
    · intro h1 h2
      simp only [if_neg (by omega : ¬ 99 - (row.totalTransactions + 1) ≤ 4),
        if_neg (by omega : ¬ 99 - (row.totalTransactions + 1) ≤ 9), if_pos h2]
    · intro h1
      simp only [if_neg (by omega : ¬ 99 - (row.totalTransactions + 1) ≤ 4),
        if_neg (by omega : ¬ 99 - (row.totalTransactions + 1) ≤ 9),
        if_neg (by omega : ¬ 99 - (row.totalTransactions + 1) ≤ 19)]

/-- Witness for C1 at the concrete rows `row99` (limit reached) and
`row80` (successful increment, remaining 18, warning `medium`). -/
theorem incrementTransaction_trial_spec_witness :
    incrementTransaction row99 = (.error .TRIAL_LIMIT_REACHED, row99) ∧
    (∃ res : IncResult,
      incrementTransaction row80 =
        (.ok res, { row80 with totalTransactions := row80.totalTransactions + 1 }) ∧
      res.total = row80.totalTransactions + 1 ∧
      res.remaining = .num (99 - (row80.totalTransactions + 1)) ∧
      (99 - (row80.totalTransactions + 1) ≤ 4 → res.warning = some .critical) ∧
      (4 < 99 - (row80.totalTransactions + 1) → 99 - (row80.totalTransactions + 1) ≤ 9 →
        res.warning = some .high) ∧
      (9 < 99 - (row80.totalTransactions + 1) → 99 - (row80.totalTransactions + 1) ≤ 19 →
        res.warning = some .medium) ∧
      (19 < 99 - (row80.totalTransactions + 1) → res.warning = none)) :=
  ⟨(incrementTransaction_trial_spec row99 rfl).1 (by decide),
   (incrementTransaction_trial_spec row80 rfl).2 (by decide)⟩

/-! ## Claim C3 -/

/-- C3 counterexample: on a row with `licenseStatus = activated` AND a
still-valid `temporaryUntil`, getActivationStatus returns status
`"temporary"`, not `"activated"` — the temporary check takes precedence,
contradicting "status = activated whenever licenseStatus = activated". -/
theorem getActivationStatus_temporary_overrides_activated :
    rowTempActivated.licenseStatus = .activated ∧
    (getActivationStatus rowTempActivated 5).status = .temporary ∧
    (getActivationStatus rowTempActivated 5).status ≠ .activated := by decide

/-- C3 amended: status is `"temporary"` whenever temporaryUntil is set and
strictly in the future (this takes precedence over `activated`);
`"activated"` when licenseStatus = activated and not temporary-valid;
`"trial"` when licenseStatus = trial and not temporary-valid.  `remaining`
is `"unlimited"` exactly when activated or temporary-valid, else
`max(0, 99 - totalTransactions)`. -/
theorem getActivationStatus_spec (row : CounterRow) (now : Nat) :
    (tempValid row now → (getActivationStatus row now).status = .temporary) ∧
    (¬ tempValid row now → row.licenseStatus = .activated →
      (getActivationStatus row now).status = .activated) ∧
    (¬ tempValid row now → row.licenseStatus = .trial →
      (getActivationStatus row now).status = .trial) ∧
    (row.licenseStatus = .activated ∨ tempValid row now →
      (getActivationStatus row now).remaining = .unlimited) ∧
    (row.licenseStatus = .trial → ¬ tempValid row now →
      (getActivationStatus row now).remaining =
        .num (maxTrialTransactions - row.totalTransactions)) := by
  have hiff := isTemporary_iff row now
  refine ⟨?_, ?_, ?_, ?_, ?_⟩
  · intro ht
    simp [getActivationStatus, hiff.2 ht]
  · intro ht hact
    have hf : isTemporary row now = false := by
      cases hb : isTemporary row now
      · rfl
      · exact absurd (hiff.1 hb) ht
    simp [getActivationStatus, hf, hact]
  · intro ht htr
    have hf : isTemporary row now = false := by
      cases hb : isTemporary row now
      · rfl
      · exact absurd (hiff.1 hb) ht
    simp [getActivationStatus, hf, htr]
  · rintro (hact | ht)
    · simp [getActivationStatus, hact]
    · simp [getActivationStatus, hiff.2 ht]
  · intro htr ht
    have hf : isTemporary row now = false := by
      cases hb : isTemporary row now
      · rfl
      · exact absurd (hiff.1 hb) ht
    simp [getActivationStatus, hf, htr]

/-- Witness for C3's amended statement at `rowTempActivated` and time 5:
the grace period is still valid, so status is temporary and remaining
unlimited. -/
theorem getActivationStatus_spec_witness :
    (getActivationStatus rowTempActivated 5).status = .temporary ∧
    (getActivationStatus rowTempActivated 5).remaining = .unlimited :=
  ⟨(getActivationStatus_spec rowTempActivated 5).1 ⟨10, rfl, by decide⟩,
   (getActivationStatus_spec rowTempActivated 5).2.2.2.1 (Or.inl rfl)⟩

/-! ## Claim C4 -/

/-- C4: incrementTransaction's SELECT and UPDATE are separate,
untransacted statements, so two concurrent trial-mode calls starting at
`totalTransactions = 98` whose SELECTs both run before either UPDATE both
pass the line-271 limit check: 2 calls succeed where at most
`99 - 98 = 1` may, and the final stored counter is 99 (the second UPDATE
silently overwrites with the same absolute value). -/
theorem incrementTransaction_concurrent_lost_update :
    (raceRun 98 [.read 1, .read 2, .write 1, .write 2]).successes = 2 ∧
    (raceRun 98 [.read 1, .read 2, .write 1, .write 2]).count = 99 ∧
    maxTrialTransactions - 98 = 1 := by decide

/-! ## Claim C5 -/

/-- C5: with `licenseStatus = activated`, incrementTransaction succeeds
for every current counter value, increments the stored counter, and
returns `remaining = "unlimited"`. -/
theorem incrementTransaction_activated_unlimited (row : CounterRow)
    (h : row.licenseStatus = .activated) :
    incrementTransaction row =
      (.ok { success := true, total := row.totalTransactions + 1,
             remaining := .unlimited, warning := none, status := .activated,
             message := none },
       { row with totalTransactions := row.totalTransactions + 1 }) := by
  simp [incrementTransaction, h]

/-- Witness for C5 at an activated row whose counter (100000) is far past
the trial limit. -/
theorem incrementTransaction_activated_unlimited_witness :
    incrementTransaction rowBig =
      (.ok { success := true, total := 100001, remaining := .unlimited,
             warning := none, status := .activated, message := none },
       { rowBig with totalTransactions := 100001 }) :=
  incrementTransaction_activated_unlimited rowBig rfl

/-! ## Claim C9 -/

/-- C9 counterexample: resetTrialCounter does NOT clear `last_validation`
(the UPDATE's column list omits it), so the record after a reset differs
from the fresh-install state. -/
theorem resetTrialCounter_keeps_lastValidation :
    (resetTrialCounter rowPostActivation).lastValidation = some 200 ∧
    resetTrialCounter rowPostActivation ≠ freshCounter := by decide

/-- C9 amended: resetTrialCounter zeroes the counter, restores trial
status and clears serial number, hardware id, activation date and
temporary-until — but `lastValidation` keeps its prior value. -/
theorem resetTrialCounter_spec (row : CounterRow) :
    resetTrialCounter row =
      { totalTransactions := 0, licenseStatus := .trial, serialNumber := none,
        hardwareId := none, activationDate := none,
        lastValidation := row.lastValidation, temporaryUntil := none } := rfl

/-! ## Claim C6 -/

/-- C6: a serial failing the format check is rejected with the
INVALID_FORMAT kind, and a well-formed serial failing the checksum check
with INVALID_CHECKSUM, in both cases before the fingerprint computation,
any network request and any write: the effect trace is empty and the store
is returned unchanged. -/
theorem activateLicense_failfast (store : Store) (sn hw : String)
    (onlineR : Except String ValidationResult) (now : Nat) :
    (isValidSNFormat sn = false →
      activateLicense store sn hw onlineR now =
        { result := .error .invalidFormat, store := store, effects := [] }) ∧
    (isValidSNFormat sn = true → isValidCRC sn = false →
      activateLicense store sn hw onlineR now =
        { result := .error .invalidChecksum, store := store, effects := [] }) := by
  constructor
  · intro h
    simp [activateLicense, h]
  · intro h1 h2
    simp [activateLicense, h1, h2]

/-- Witness for C6: `"HELLO"` fails the format check, and
`DMPOS-2024-000001-FFFF` passes the format check but fails the checksum
check; both are rejected with an empty effect trace. -/
theorem activateLicense_failfast_witness :
    activateLicense store0 snBadFmt "HW-1" (.error "net") 0 =
      { result := .error .invalidFormat, store := store0, effects := [] } ∧
    activateLicense store0 snBadCRC "HW-1" (.error "net") 0 =
      { result := .error .invalidChecksum, store := store0, effects := [] } :=
  ⟨(activateLicense_failfast store0 snBadFmt "HW-1" (.error "net") 0).1 (by decide),
   (activateLicense_failfast store0 snBadCRC "HW-1" (.error "net") 0).2
     (by decide) (by decide)⟩

/-! ## Claim C10 -/

/-- C10: every successful activateLicense — including a temporary offline
grant — stores `licenseStatus = activated`, and incrementTransaction gates
solely on `licenseStatus` (it takes no clock input at all), so on any
activated row, whatever the stored `temporaryUntil` (including one long
past), increments keep succeeding with `remaining = "unlimited"`: the
30-day grace deadline is never enforced by the increment operation. -/
theorem activation_unlocks_increment_forever :
    (∀ (store : Store) (sn hw : String) (onlineR : Except String ValidationResult)
        (now : Nat) (res : ActivationResult),
      (activateLicense store sn hw onlineR now).result = .ok res →
      (activateLicense store sn hw onlineR now).store.counter.licenseStatus = .activated) ∧
    (∀ row : CounterRow, row.licenseStatus = .activated →
      (incrementTransaction row).1 =
        .ok { success := true, total := row.totalTransactions + 1,
              remaining := .unlimited, warning := none, status := .activated,
              message := none }) := by
  constructor
  · intro store sn hw onlineR now res hres
    by_cases hf : isValidSNFormat sn
    case neg => simp [activateLicense, hf] at hres
    by_cases hc : isValidCRC sn
    case neg => simp [activateLicense, hf, hc] at hres
    cases onlineR with
    | ok v =>
      by_cases hs : v.success
      · simp [activateLicense, hf, hc, hs]
      · by_cases hcode : v.code = some "MAX_INSTALLATIONS_REACHED" <;>
          simp [activateLicense, hf, hc, hs, hcode] at hres
    | error e =>
      rcases hvo : validateOffline store sn hw now with ⟨v, st1, effs⟩
      by_cases hs : v.success
      · simp [activateLicense, hf, hc, hvo, hs]
      · by_cases hcode : v.code = some "MAX_INSTALLATIONS_REACHED" <;>
          simp [activateLicense, hf, hc, hvo, hs, hcode] at hres
  · intro row h
    simp [incrementTransaction, h]

/-- Witness for C10: the temporary offline activation of `snA` on the
empty-table store leaves the counter activated, and an increment on
`rowExpiredGrace` (grace expiry 5, long past) still succeeds with
`remaining = "unlimited"`. -/
theorem activation_unlocks_increment_forever_witness :
    (activateLicense store0 snA "HW-1" (.error "net") 0).store.counter.licenseStatus =
      .activated ∧
    (incrementTransaction rowExpiredGrace).1 =
      .ok { success := true, total := 501, remaining := .unlimited, warning := none,
            status := .activated, message := none } :=
  ⟨activation_unlocks_increment_forever.1 store0 snA "HW-1" (.error "net") 0
      { success := true, serialNumber := snA, hardwareId := "HW-1",
        vtype := "unknown", temporary := true, expires := some 2592000000,
        message := "Temporary activation - requires online verification within 30 days" }
      (by decide),
   activation_unlocks_increment_forever.2 rowExpiredGrace rfl⟩

/-! ## Claim C2 -/

/-- C2 counterexample: activating the same checksum-valid, unrecognized
serial twice with the online server unreachable leaves TWO pending queue
entries for that serial and hardware id — the `INSERT OR REPLACE` is keyed
only by the autoincrement id, so it is a plain insert, not an upsert by
serial. -/
theorem activateLicense_queue_duplicates :
    (activateLicense ((activateLicense store0 snA "HW-1" (.error "net") 0).store)
        snA "HW-1" (.error "net") 1000).store.queue =
      [{ serialNumber := snA, hardwareId := "HW-1", timestamp := 0, attempts := 0,
         status := "pending" },
       { serialNumber := snA, hardwareId := "HW-1", timestamp := 1000, attempts := 0,
         status := "pending" }] := by decide

/-- C2 amended: with a format- and checksum-valid serial that the
preloaded table does not recognize and a failing online validation, the
call succeeds with `temporary = true` and `expires = now + 30 days`, and
appends exactly one new pending entry with zero attempts to the validation
queue; starting from a queue with no entry for that serial and hardware
pair, exactly one such entry exists afterwards — but the enqueue is a
plain insert, so repeated activations of the same serial accumulate
duplicate entries. -/
theorem activateLicense_offline_unknown_grant
    (store : Store) (sn hw err : String) (now : Nat)
    (hfmt : isValidSNFormat sn = true) (hcrc : isValidCRC sn = true)
    (hun : ∀ r : PreloadedSN, findPreloaded store sn = some r → r.valid = false) :
    ∃ res : ActivationResult,
      (activateLicense store sn hw (.error err) now).result = .ok res ∧
      res.temporary = true ∧
      res.expires = some (now + 2592000000) ∧
      (activateLicense store sn hw (.error err) now).store.queue =
        store.queue ++
          [{ serialNumber := sn, hardwareId := hw, timestamp := now, attempts := 0,
             status := "pending" }] ∧
      ((store.queue.filter (fun e => e.serialNumber == sn && e.hardwareId == hw)).length = 0 →
        ((activateLicense store sn hw (.error err) now).store.queue.filter
            (fun e => e.serialNumber == sn && e.hardwareId == hw)).length = 1) := by
  have hvo : validateOffline store sn hw now = offlineTemporaryGrant store sn hw now := by
    cases hfind : findPreloaded store sn with
    | none => simp [validateOffline, hfind]
    | some r => simp [validateOffline, hfind, hun r hfind]
  refine ⟨{ success := true, serialNumber := sn, hardwareId := hw, vtype := "unknown",
            temporary := true, expires := some (now + 2592000000),
            message := "Temporary activation - requires online verification within 30 days" },
          ?_, rfl, rfl, ?_, ?_⟩
  · simp [activateLicense, hfmt, hcrc, hvo, offlineTemporaryGrant]
  · simp [activateLicense, hfmt, hcrc, hvo, offlineTemporaryGrant,
      queueForOnlineValidation]
  · intro h0
    simp [activateLicense, hfmt, hcrc, hvo, offlineTemporaryGrant,
      queueForOnlineValidation, List.filter_append, h0]

/-- Witness for C2's amended statement: the offline activation of `snA` on
the empty-table, empty-queue store appends exactly the single expected
pending entry. -/
theorem activateLicense_offline_unknown_grant_witness :
    (activateLicense store0 snA "HW-1" (.error "net") 0).store.queue =
      store0.queue ++
        [{ serialNumber := snA, hardwareId := "HW-1", timestamp := 0, attempts := 0,
           status := "pending" }] := by
  obtain ⟨res, h1, h2, h3, h4, h5⟩ :=
    activateLicense_offline_unknown_grant store0 snA "HW-1" "net" 0 (by decide) (by decide)
      (fun r hr => by simp [findPreloaded, store0] at hr)
  exact h4

/-! ## Claim C7 -/

/-- The spec's description of the checksum check: the input splits on `'-'`
into exactly four segments, and the fourth segment equals (case-sensitively)
the first 4 characters, uppercased, of the hex MD5 digest of the first
three segments each followed by a hyphen. -/
def checksumSpec (s : String) : Prop :=
  ∃ a b c d : String,
    splitDash s = [a, b, c, d] ∧
    d = strToUpper (strTake (md5hex (a ++ "-" ++ b ++ "-" ++ c ++ "-")) 4)

/-- C7: isValidCRC returns true exactly on the inputs described by
`checksumSpec`; in particular any input with a segment count other than
four yields false (never an exception). -/
theorem isValidCRC_spec (s : String) :
    isValidCRC s = true ↔ checksumSpec s := by
  unfold isValidCRC checksumSpec
  generalize splitDash s = l
  match l with
  | [] => simp
  | [a] => simp
  | [a, b] => simp
  | [a, b, c] => simp
  | [a, b, c, d] => simp
  | a :: b :: c :: d :: e :: tl => simp

/-! ## Claim C8 -/

/-- The spec's description of the serial shape: the fixed prefix literal,
four digits, six uppercase alphanumerics and a four-character checksum
segment over the same alphabet, joined by single hyphens. -/
def formatSpec (s : String) : Prop :=
  ∃ y x c : String,
    s = "DMPOS-" ++ y ++ "-" ++ x ++ "-" ++ c ∧
    y.length = 4 ∧ y.data.all isDigitChar = true ∧
    x.length = 6 ∧ x.data.all isUpperAlnumChar = true ∧
    c.length = 4 ∧ c.data.all isUpperAlnumChar = true

/-- A list of length 4 is a 4-element literal. -/
theorem exists_list4 {α : Type} (x : List α) (h : x.length = 4) :
    ∃ a b c d, x = [a, b, c, d] := by
  match x with
  | [a, b, c, d] => exact ⟨a, b, c, d, rfl⟩
  | [] | [_] | [_, _] | [_, _, _] => simp at h
  | _ :: _ :: _ :: _ :: _ :: tl => simp at h

/-- A list of length 6 is a 6-element literal. -/
theorem exists_list6 {α : Type} (x : List α) (h : x.length = 6) :
    ∃ a b c d e f, x = [a, b, c, d, e, f] := by
  match x with
  | [a, b, c, d, e, f] => exact ⟨a, b, c, d, e, f, rfl⟩
  | [] | [_] | [_, _] | [_, _, _] | [_, _, _, _] | [_, _, _, _, _] => simp at h
  | _ :: _ :: _ :: _ :: _ :: _ :: _ :: tl => simp at h

/-- The checksum-segment matcher accepts exactly the 4-character
`[A-Z0-9]` lists. -/
theorem matchCRCpart_iff (l : List Char) :
    matchCRCpart l = true ↔ l.length = 4 ∧ l.all isUpperAlnumChar = true := by
  constructor
  · intro h
    match l with
    | [c1, c2, c3, c4] =>
      simp [matchCRCpart] at h
      obtain ⟨⟨⟨h1, h2⟩, h3⟩, h4⟩ := h
      simp [h1, h2, h3, h4]
    | [] | [_] | [_, _] | [_, _, _] => exact absurd h (by simp [matchCRCpart])
    | _ :: _ :: _ :: _ :: _ :: tl => exact absurd h (by simp [matchCRCpart])
  · rintro ⟨hlen, hall⟩
    obtain ⟨c1, c2, c3, c4, rfl⟩ := exists_list4 l hlen
    simp at hall
    simp [matchCRCpart, hall.1, hall.2.1, hall.2.2.1, hall.2.2.2]

/-- The body matcher accepts exactly `[A-Z0-9]{6}` followed by a hyphen
and a checksum segment. -/
theorem matchBodyPart_iff (l : List Char) :
    matchBodyPart l = true ↔
      ∃ x cr : List Char, l = x ++ '-' :: cr ∧
        x.length = 6 ∧ x.all isUpperAlnumChar = true ∧
        cr.length = 4 ∧ cr.all isUpperAlnumChar = true := by
  constructor
  · intro h
    match l with
    | x1 :: x2 :: x3 :: x4 :: x5 :: x6 :: hc :: rest =>
      simp [matchBodyPart] at h
      obtain ⟨⟨⟨⟨⟨⟨⟨h1, h2⟩, h3⟩, h4⟩, h5⟩, h6⟩, hdash⟩, hcrc⟩ := h
      subst hdash
      obtain ⟨hlen, hall⟩ := (matchCRCpart_iff rest).1 hcrc
      exact ⟨[x1, x2, x3, x4, x5, x6], rest, by simp, by simp,
        by simp [h1, h2, h3, h4, h5, h6], hlen, hall⟩
    | [] | [_] | [_, _] | [_, _, _] | [_, _, _, _] | [_, _, _, _, _]
    | [_, _, _, _, _, _] =>
      exact absurd h (by simp [matchBodyPart])
  · rintro ⟨x, cr, rfl, hx6, hxall, hcr4, hcrall⟩
    obtain ⟨x1, x2, x3, x4, x5, x6, rfl⟩ := exists_list6 x hx6
    simp at hxall
    simp [matchBodyPart, hxall.1, hxall.2.1, hxall.2.2.1, hxall.2.2.2.1,
      hxall.2.2.2.2.1, hxall.2.2.2.2.2,
      (matchCRCpart_iff cr).2 ⟨hcr4, hcrall⟩]

/-- The year matcher accepts exactly `\d{4}` followed by a hyphen and a
body accepted by the body matcher. -/
theorem matchYearPart_iff (l : List Char) :
    matchYearPart l = true ↔
      ∃ y rest : List Char, l = y ++ '-' :: rest ∧
        y.length = 4 ∧ y.all isDigitChar = true ∧ matchBodyPart rest = true := by
  constructor
  · intro h
    match l with
    | y1 :: y2 :: y3 :: y4 :: hc :: rest =>
      simp [matchYearPart] at h
      obtain ⟨⟨⟨⟨⟨h1, h2⟩, h3⟩, h4⟩, hdash⟩, hbody⟩ := h
      subst hdash
      exact ⟨[y1, y2, y3, y4], rest, by simp, by simp, by simp [h1, h2, h3, h4], hbody⟩
    | [] | [_] | [_, _] | [_, _, _] | [_, _, _, _] =>
      exact absurd h (by simp [matchYearPart])
  · rintro ⟨y, rest, rfl, hy4, hyall, hbody⟩
    obtain ⟨y1, y2, y3, y4, rfl⟩ := exists_list4 y hy4
    simp at hyall
    simp [matchYearPart, hyall.1, hyall.2.1, hyall.2.2.1, hyall.2.2.2, hbody]

/-- isValidSNFormat, characterized over the character list of the input. -/
theorem isValidSNFormat_iff_data (s : String) :
    isValidSNFormat s = true ↔
      ∃ y x c : List Char,
        s.data = 'D' :: 'M' :: 'P' :: 'O' :: 'S' :: '-' :: (y ++ '-' :: (x ++ '-' :: c)) ∧
        y.length = 4 ∧ y.all isDigitChar = true ∧
        x.length = 6 ∧ x.all isUpperAlnumChar = true ∧
        c.length = 4 ∧ c.all isUpperAlnumChar = true := by
  unfold isValidSNFormat
  generalize s.data = l
  constructor
  · intro h
    match l with
    | d :: m :: p :: o :: s5 :: hc :: rest =>
      simp at h
      obtain ⟨⟨⟨⟨⟨⟨hd, hm⟩, hp⟩, ho⟩, hs⟩, hdash⟩, hrest⟩ := h
      subst hd; subst hm; subst hp; subst ho; subst hs; subst hdash
      obtain ⟨y, rest2, rfl, hy4, hyall, hbody⟩ := (matchYearPart_iff rest).1 hrest
      obtain ⟨x, cr, rfl, hx6, hxall, hcr4, hcrall⟩ := (matchBodyPart_iff rest2).1 hbody
      exact ⟨y, x, cr, rfl, hy4, hyall, hx6, hxall, hcr4, hcrall⟩
    | [] | [_] | [_, _] | [_, _, _] | [_, _, _, _] | [_, _, _, _, _] =>
      exact absurd h (by simp)
  · rintro ⟨y, x, c, rfl, hy4, hyall, hx6, hxall, hc4, hcall⟩
    simp
    exact (matchYearPart_iff _).2
      ⟨y, x ++ '-' :: c, rfl, hy4, hyall,
       (matchBodyPart_iff _).2 ⟨x, c, rfl, hx6, hxall, hc4, hcall⟩⟩

/-- The character list of the spec-side concatenation. -/
theorem dmpos_concat_data (y x c : List Char) :
    ("DMPOS-" ++ String.mk y ++ "-" ++ String.mk x ++ "-" ++ String.mk c).data =
      'D' :: 'M' :: 'P' :: 'O' :: 'S' :: '-' :: (y ++ '-' :: (x ++ '-' :: c)) := by
  have h1 : ("DMPOS-" : String).data = ['D', 'M', 'P', 'O', 'S', '-'] := rfl
  have h2 : ("-" : String).data = ['-'] := rfl
  simp [String.data_append, h1, h2, List.append_assoc]

/-- C8: isValidSNFormat returns true exactly on the inputs of shape
`DMPOS-YYYY-XXXXXX-CCCC` described by `formatSpec`; every deviation makes
it return false. -/
theorem isValidSNFormat_spec (s : String) :
    isValidSNFormat s = true ↔ formatSpec s := by
  rw [isValidSNFormat_iff_data]
  unfold formatSpec
  constructor
  · rintro ⟨y, x, c, hdata, hy4, hyall, hx6, hxall, hc4, hcall⟩
    refine ⟨String.mk y, String.mk x, String.mk c, ?_, hy4, hyall, hx6, hxall, hc4, hcall⟩
    apply String.ext
    rw [dmpos_concat_data]
    exact hdata
  · rintro ⟨y, x, c, rfl, hy4, hyall, hx6, hxall, hc4, hcall⟩
    exact ⟨y.data, x.data, c.data, dmpos_concat_data y.data x.data c.data,
      hy4, hyall, hx6, hxall, hc4, hcall⟩

end DMPOS
